import Mathlib

/-!
Verification of the receipt normalization and cost-apportionment engine of the
expense-tracking application.  The definitions below are a shallow embedding of
the TypeScript source: JavaScript numbers are modelled as exact rationals
(`ℚ`, with `JVal.nan` standing for `NaN`), strings as Lean `String`s, and
JavaScript objects as Lean structures with `Option` fields for properties that
may be `undefined`.  `parseFloat`, the regex-strip preprocessing, `toFixed`
rounding and JavaScript truthiness are modelled explicitly.
-/

/-- A JavaScript value that is either a number, the special `NaN`, or a string.
`undefined` is modelled by wrapping in `Option`. -/
inductive JVal where
  | num (q : ℚ)
  | nan
  | str (s : String)
deriving DecidableEq

/-- JavaScript truthiness of a possibly-undefined number-or-string value:
`undefined`, `NaN`, `0` and the empty string are falsy. -/
def jsTruthy : Option JVal → Bool
  | none => false
  | some JVal.nan => false
  | some (JVal.num q) => q != 0
  | some (JVal.str s) => s != ""

/-- JavaScript `x || d` for a parse result (`none` = `NaN`): `NaN` and `0`
both fall back to the default. -/
def jsOr (d : ℚ) : Option ℚ → ℚ
  | none => d
  | some q => if q = 0 then d else q

/-- JavaScript `s || d` for a possibly-undefined string (empty string falsy). -/
def jsOrStr (v : Option String) (d : String) : String :=
  match v with
  | none => d
  | some s => if s = "" then d else s

/-- Numeric value of a digit character. -/
def digitVal (c : Char) : ℕ := c.toNat - 48

/-- Value of a list of digit characters read in base 10. -/
def digitsToNat (ds : List Char) : ℕ :=
  ds.foldl (fun a c => 10 * a + digitVal c) 0

/-- Syntactic pieces of a JavaScript decimal number literal: sign, integer
digits, fractional digits, exponent. -/
structure NumParts where
  neg : Bool
  intDs : List Char
  fracDs : List Char
  expo : ℤ
deriving DecidableEq

/-- Read an optional leading sign: `true` means negative; the rest of the
characters follow. -/
def splitSign (s : List Char) : Bool × List Char :=
  match s with
  | [] => (false, [])
  | c :: t =>
    if c = '-' then (true, t)
    else if c = '+' then (false, t)
    else (false, c :: t)

/-- Exponent part of a JS number literal (after the `e`/`E`): optional sign and
digits; `none` when no digits follow (the exponent is then ignored). -/
def parseExpPart (s : List Char) : Option ℤ :=
  let signAndRest := splitSign s
  let ds := signAndRest.2.takeWhile Char.isDigit
  if ds.isEmpty then none
  else some (if signAndRest.1 then -(digitsToNat ds : ℤ) else (digitsToNat ds : ℤ))

/-- Syntactic stage of JavaScript `parseFloat`: skips leading whitespace, reads
an optional sign, integer digits, an optional fraction and an optional
exponent, ignoring any trailing characters.  `none` models `NaN`.
(`Infinity` literals, which never arise from the receipt data paths, are not
modelled.) -/
def parseParts (s : List Char) : Option NumParts :=
  let s0 := s.dropWhile (fun c => c = ' ' || c = '\t' || c = '\n' || c = '\r')
  let signAndRest := splitSign s0
  let s1 := signAndRest.2
  let intDs := s1.takeWhile Char.isDigit
  let rest1 := s1.dropWhile Char.isDigit
  let fracAndRest : List Char × List Char :=
    match rest1 with
    | '.' :: t => (t.takeWhile Char.isDigit, t.dropWhile Char.isDigit)
    | t => ([], t)
  if intDs.isEmpty ∧ fracAndRest.1.isEmpty then none
  else
    let e : ℤ :=
      match fracAndRest.2 with
      | c :: t => if c = 'e' ∨ c = 'E' then (parseExpPart t).getD 0 else 0
      | [] => 0
    some ⟨signAndRest.1, intDs, fracAndRest.1, e⟩

/-- Numeric value of the syntactic pieces of a number literal. -/
def partsVal (p : NumParts) : ℚ :=
  let base : ℚ :=
    (digitsToNat p.intDs : ℚ) + (digitsToNat p.fracDs : ℚ) / (10 : ℚ) ^ p.fracDs.length
  let v := base * (10 : ℚ) ^ p.expo
  if p.neg then -v else v

/-- JavaScript `parseFloat` on a character list; `none` models `NaN`. -/
def parseFloatQ (s : List Char) : Option ℚ := (parseParts s).map partsVal

/-- `parseFloat` on a Lean string. -/
def parseFloatS (s : String) : Option ℚ := parseFloatQ s.data

/-- `value.replace(/[^\d.-]/g, '')`: keep only digits, dots and minus signs. -/
def stripMoney (s : String) : String :=
  ⟨s.data.filter (fun c => c.isDigit || c = '.' || c = '-')⟩

/-- `value.replace(/[^0-9.]/g, '')`: keep only digits and dots. -/
def stripNonNeg (s : String) : String :=
  ⟨s.data.filter (fun c => c.isDigit || c = '.')⟩

/-- `parseFloat(x.toFixed(2))`: round to 2 decimal places, ties toward `+∞`
exactly as ECMAScript `toFixed` picks the larger candidate. -/
def round2 (q : ℚ) : ℚ := (round (q * 100) : ℚ) / 100

/-- Numeric value printed by `toFixed(4)`. -/
def round4 (q : ℚ) : ℚ := (round (q * 10000) : ℚ) / 10000

/-- Left-pad a digit list with zeros to the given length. -/
def padZeros (s : List Char) (n : ℕ) : List Char :=
  List.replicate (n - s.length) '0' ++ s

/-- Decimal string of a natural number scaled by `10^n`, with the decimal
point inserted `n` places from the right (the core of `toFixed`). -/
def natFixed (k : ℕ) (n : ℕ) : String :=
  if n = 0 then ⟨Nat.toDigits 10 k⟩
  else
    let ds := padZeros (Nat.toDigits 10 k) (n + 1)
    ⟨ds.take (ds.length - n) ++ '.' :: ds.drop (ds.length - n)⟩

/-- JavaScript `q.toFixed(n)` for a rational number. -/
def toFixed (n : ℕ) (q : ℚ) : String :=
  let m : ℤ := round (q * (10 : ℚ) ^ n)
  if m < 0 then "-" ++ natFixed m.natAbs n else natFixed m.natAbs n

/-- `q.toFixed(n)` where the number may be `NaN` (prints `"NaN"`). -/
def toFixedOpt (n : ℕ) : Option ℚ → String
  | none => "NaN"
  | some q => toFixed n q

/-- `String(i)` for the integer involvement values stored in the maps. -/
def intRepr (i : ℤ) : String :=
  if i < 0 then "-" ++ ⟨Nat.toDigits 10 i.natAbs⟩ else ⟨Nat.toDigits 10 i.natAbs⟩

/-- Evaluation helper: a `parseFloat` call is settled by deciding the
syntactic stage and normalising the numeric stage. -/
theorem parseFloatS_eq_of_parts (s : String) (p : NumParts) (q : ℚ)
    (h : parseParts s.data = some p) (hv : partsVal p = q) :
    parseFloatS s = some q := by
  rw [parseFloatS, parseFloatQ, h, Option.map, hv]

/-- Evaluation helper: `parseFloat` is `NaN` when the syntactic stage fails. -/
theorem parseFloatS_eq_none (s : String) (h : parseParts s.data = none) :
    parseFloatS s = none := by
  rw [parseFloatS, parseFloatQ, h, Option.map]

/-- Evaluation helper for `toFixed` at concrete values. -/
theorem toFixed_eq_of_round (n : ℕ) (q : ℚ) (m : ℤ)
    (h : round (q * (10 : ℚ) ^ n) = m) :
    toFixed n q = if m < 0 then "-" ++ natFixed m.natAbs n else natFixed m.natAbs n := by
  rw [toFixed, h]

example : parseFloatS "12.95" = some (1295 / 100) := by
  refine parseFloatS_eq_of_parts _ ⟨false, ['1', '2'], ['9', '5'], 0⟩ _ (by decide) ?_
  have h1 : digitsToNat ['1', '2'] = 12 := by decide
  have h2 : digitsToNat ['9', '5'] = 95 := by decide
  simp [partsVal, h1, h2]
  norm_num

example : parseFloatS "-2" = some (-2) := by
  refine parseFloatS_eq_of_parts _ ⟨true, ['2'], [], 0⟩ _ (by decide) ?_
  have h1 : digitsToNat ['2'] = 2 := by decide
  have h2 : digitsToNat ([] : List Char) = 0 := by decide
  simp [partsVal, h1, h2]

example : parseFloatS "" = none := parseFloatS_eq_none _ (by decide)

example : toFixed 2 (339 / 20) = "16.95" := by
  rw [toFixed_eq_of_round 2 _ 1695 (by rw [round_eq]; norm_num)]
  decide

example : toFixed 4 (5 / 2) = "2.5000" := by
  rw [toFixed_eq_of_round 4 _ 25000 (by rw [round_eq]; norm_num)]
  decide

example : round2 (13 : ℚ) = 13 := by
  rw [round2]
  rw [show round ((13 : ℚ) * 100) = 1300 by rw [round_eq]; norm_num]
  norm_num

/-! ## Data model

Shared shapes from `clipboardUtils.ts` / `sheetsService.ts` /
`EditableReceiptTable.tsx`.  JavaScript objects mapping participant names to
involvement numbers are modelled as insertion-ordered association lists, so
that the source's `JSON.stringify` comparison of two involvement objects is
list equality. -/

/-- An involvement mapping (`Record<string, number>`). -/
abbrev InvMap := List (String × ℤ)

/-- JavaScript property read `m[name]` (`none` = `undefined`). -/
def jget (m : InvMap) (k : String) : Option ℤ :=
  (m.find? (fun kv => kv.1 == k)).map (fun kv => kv.2)

/-- The fixed participant roster `HOUSEMATES` from `sheetsService.ts`. -/
def HOUSEMATES : List String :=
  ["Timothy", "Rachel", "Bryan", "Pigskin", "Angel", "Ivan", "Esther", "Ken9"]

/-- `ReceiptItem` from `clipboardUtils.ts` / `EditableReceiptTable.tsx`. -/
structure ReceiptItem where
  description : String := ""
  price : Option JVal := none
  unit_price : Option JVal := none
  quantity : Option JVal := none
  taxable : Option Bool := none
  involvedHousemates : Option InvMap := none
deriving DecidableEq

/-- `ReceiptData` from `clipboardUtils.ts` / `EditableReceiptTable.tsx`. -/
structure ReceiptData where
  items : List ReceiptItem := []
  total : Option JVal := none
  vendor : Option String := none
  date : Option String := none
  tax : Option JVal := none
  subtotal : Option JVal := none
  receiptId : Option String := none
  paidBy : Option String := none
  sharedWith : Option (List String) := none
  involvedHousemates : Option InvMap := none
  expenseType : Option ℤ := none
deriving DecidableEq

/-- `parseFloat(typeof v === 'string' ? v : String(v))`: JavaScript's number
to string rendering round-trips through `parseFloat`, `undefined` renders as
`"undefined"` and `NaN` as `"NaN"` (both parse to `NaN`). -/
def parseJ : Option JVal → Option ℚ
  | none => none
  | some (JVal.num q) => some q
  | some JVal.nan => none
  | some (JVal.str s) => parseFloatS s

/-- `parseFloat(v?.toString() || '0')`: `undefined` and the empty string fall
back to the string `'0'`. -/
def parseJor0 : Option JVal → Option ℚ
  | none => some 0
  | some (JVal.num q) => some q
  | some JVal.nan => none
  | some (JVal.str s) => if s = "" then some 0 else parseFloatS s

/-! ## `sheetsService.ts` -/

/-- `formatCurrency` from `sheetsService.ts` (`none` result = `NaN`, which is
returned unchanged when the input is the number `NaN`). -/
def formatCurrencyN : Option JVal → Option ℚ
  | none => some 0
  | some (JVal.num q) => some q
  | some JVal.nan => none
  | some (JVal.str s) => some (jsOr 0 (parseFloatS (stripNonNeg s)))

/-- A raw item of the sheets-service `ReceiptData` shape. -/
structure SheetItem where
  name : Option String := none
  description : Option String := none
  price : Option JVal := none
  quantity : Option JVal := none
deriving DecidableEq

/-- A spreadsheet cell: a string or a number (`none` = `NaN`). -/
inductive Cell where
  | s (v : String)
  | n (q : Option ℚ)
deriving DecidableEq

/-- `data.sharedWith?.length || HOUSEMATES.length`: the divisor of
`writeReceiptToSheet` (an empty `sharedWith` array falls back to the full
roster size). -/
def sheetSharedCount (data : ReceiptData) : ℕ :=
  match data.sharedWith with
  | some l => if l.length = 0 then HOUSEMATES.length else l.length
  | none => HOUSEMATES.length

/-- `perPersonAmount` of `writeReceiptToSheet`:
`sharedCount > 0 ? amount / sharedCount : 0`. -/
def sheetRowPerPerson (data : ReceiptData) (item : SheetItem) : Option ℚ :=
  if sheetSharedCount data > 0 then
    (formatCurrencyN item.price).map (fun a => a / (sheetSharedCount data : ℚ))
  else some 0

/-- One row of `writeReceiptToSheet` for one item.  `fmtDate` stands for
`formatDate(data.date || new Date().toISOString())`, whose output depends on
the wall clock for a missing date; it is passed in as a parameter. -/
def writeReceiptRow (fmtDate : Option String → String)
    (data : ReceiptData) (item : SheetItem) : List Cell :=
  let perPerson : Option ℚ := sheetRowPerPerson data item
  let isShared : String → Bool := fun h =>
    match data.sharedWith with
    | none => true
    | some l => l.contains h
  [Cell.s (fmtDate data.date),
   Cell.s (jsOrStr item.name (jsOrStr item.description "Unknown Item")),
   Cell.s (match data.expenseType with | some n => intRepr n | none => "9"),
   Cell.n (formatCurrencyN item.price),
   Cell.s (jsOrStr data.paidBy ""),
   Cell.s (jsOrStr data.vendor "Unknown Vendor"),
   Cell.n perPerson] ++
  HOUSEMATES.map (fun h => Cell.n (if isShared h then perPerson else some 0))

/-- A raw OCR item as consumed by `sanitizeOcrResponse`. -/
structure OcrItem where
  name : Option String := none
  description : Option String := none
  quantity : Option JVal := none
  unit_price : Option JVal := none
  price : Option JVal := none
  taxable : Option Bool := none
deriving DecidableEq

/-- A sanitized item as produced by `sanitizeOcrResponse`. -/
structure SanItem where
  description : String
  quantity : ℚ
  unit_price : ℚ
  price : ℚ
  taxable : Bool
deriving DecidableEq

/-- The untyped OCR payload consumed by `sanitizeOcrResponse`; a non-array
`items` value other than `undefined` does not arise from the OCR adapter and
is not modelled. -/
structure OcrPayload where
  vendor : Option String := none
  date : Option String := none
  total : Option JVal := none
  items : Option (List OcrItem) := none
  subtotal : Option JVal := none
  tax : Option JVal := none
deriving DecidableEq

/-- The payload returned by `sanitizeOcrResponse`. -/
structure SanPayload where
  vendor : Option String := none
  date : Option String := none
  total : Option JVal := none
  items : Option (List SanItem) := none
  subtotal : Option JVal := none
  tax : Option JVal := none
deriving DecidableEq

/-- Wrap a parse result back into a JS number (`none` = `NaN`). -/
def numOrNan : Option ℚ → JVal
  | some q => JVal.num q
  | none => JVal.nan

/-- The per-item sanitization step inside `sanitizeOcrResponse`. -/
def sanitizeOcrItem (item : OcrItem) : SanItem :=
  let quantity : ℚ :=
    match item.quantity with
    | some (JVal.str s) => jsOr 1 (parseFloatS (stripNonNeg s))
    | v => jsOr 1 (parseJ v)
  let totalPrice : ℚ :=
    match item.price with
    | some (JVal.str s) => jsOr 0 (parseFloatS (stripMoney s))
    | v => jsOr 0 (parseJ v)
  let unitPrice : ℚ :=
    if jsTruthy item.unit_price then
      match item.unit_price with
      | some (JVal.str s) => jsOr 0 (parseFloatS (stripMoney s))
      | v => jsOr 0 (parseJ v)
    else
      if quantity > 0 then totalPrice / quantity else totalPrice
  let finalPrice : ℚ := if totalPrice = 0 then unitPrice * quantity else totalPrice
  { description := jsOrStr item.name "Unknown Item"
    quantity := quantity
    unit_price := round2 unitPrice
    price := round2 finalPrice
    taxable := true }

/-- The `total` coercion step of `sanitizeOcrResponse`: a string total is
stripped and parsed. -/
def sanTotal (p : OcrPayload) : Option JVal :=
  match p.total with
  | some (JVal.str s) => some (numOrNan (parseFloatS (stripMoney s)))
  | v => v

/-- The `date` normalisation step of `sanitizeOcrResponse`.  `normDate` stands
for the `new Date(...)`/`toISOString` branch (wall-clock and implementation
dependent); it is applied exactly where the source applies it, and invalid
dates are left as-is inside it. -/
def sanDate (normDate : String → String) (p : OcrPayload) : Option String :=
  match p.date with
  | some s => some (if s = "" then s else normDate s)
  | none => none

/-- The item-sanitization step of `sanitizeOcrResponse`. -/
def sanItems (p : OcrPayload) : Option (List SanItem) :=
  p.items.map (List.map sanitizeOcrItem)

/-- The `subtotal` backfill step of `sanitizeOcrResponse`: a falsy subtotal is
recomputed from the sanitized items when they are an array, a string subtotal
is stripped and parsed. -/
def sanSubtotal (p : OcrPayload) : Option JVal :=
  if ¬ jsTruthy p.subtotal then
    match sanItems p with
    | some its => some (JVal.num (round2 (its.map (fun i => i.price)).sum))
    | none => p.subtotal
  else
    match p.subtotal with
    | some (JVal.str s) => some (numOrNan (parseFloatS (stripMoney s)))
    | v => v

/-- The `tax` backfill step of `sanitizeOcrResponse`: a falsy tax becomes 13%
of the (numeric) subtotal rounded to 2 decimals, a string tax is stripped and
parsed. -/
def sanTax (p : OcrPayload) : Option JVal :=
  if ¬ jsTruthy p.tax then
    some (match sanSubtotal p with
      | some (JVal.num q) => JVal.num (round2 (q * (13 / 100)))
      | some JVal.nan => JVal.nan
      | _ => JVal.num (round2 (0 * (13 / 100))))
  else
    match p.tax with
    | some (JVal.str s) => some (numOrNan (parseFloatS (stripMoney s)))
    | v => v

/-- The final `total` validation step of `sanitizeOcrResponse`. -/
def sanTotalFinal (p : OcrPayload) : Option JVal :=
  if jsTruthy (sanSubtotal p) ∧ jsTruthy (sanTax p) ∧
      (¬ jsTruthy (sanTotal p) ∨ sanTotal p = some (JVal.num 0)) then
    match sanSubtotal p, sanTax p with
    | some (JVal.num a), some (JVal.num b) => some (JVal.num (round2 (a + b)))
    | _, _ => sanTotal p
  else sanTotal p

/-- `sanitizeOcrResponse` from `sheetsService.ts`, assembled from its steps in
source order. -/
def sanitizeOcrResponse (normDate : String → String) (p : OcrPayload) : SanPayload :=
  { vendor := p.vendor
    date := sanDate normDate p
    total := sanTotalFinal p
    items := sanItems p
    subtotal := sanSubtotal p
    tax := sanTax p }

/-! ## `clipboardUtils.ts` -/

/-- `getExpenseTypeLabel` from `clipboardUtils.ts`. -/
def getExpenseTypeLabel (e : ℤ) : String :=
  if e = 1 then "食物" else
  if e = 2 then "飲品" else
  if e = 3 then "衣物" else
  if e = 4 then "居家" else
  if e = 5 then "電子產品" else
  if e = 6 then "娛樂" else
  if e = 7 then "交通" else
  if e = 8 then "醫藥" else "其他"

/-- `receiptData.expenseType || 1` (`0` and `undefined` fall back to `1`). -/
def effExpenseType (r : ReceiptData) : ℤ :=
  match r.expenseType with
  | some n => if n = 0 then 1 else n
  | none => 1

/-- `parseFloat(typeof v === 'string' ? v : v?.toString() || '0')`: the price
parse used by the clipboard subtotal and by the `ReceiptList` variant. -/
def parsePriceJS : Option JVal → Option ℚ
  | some (JVal.str s) => parseFloatS s
  | v => parseJor0 v

/-- `NaN`-propagating addition (`none` = `NaN`). -/
def optAdd : Option ℚ → Option ℚ → Option ℚ
  | some a, some b => some (a + b)
  | _, _ => none

/-- The involvement object the clipboard formatter reads for an item:
`item.involvedHousemates || receiptData.involvedHousemates || {}`. -/
def resolveItemInvolvement (r : ReceiptData) (i : ReceiptItem) : InvMap :=
  i.involvedHousemates.getD (r.involvedHousemates.getD [])

/-- The involvement patterns compared by `JSON.stringify` to decide between
single-row and per-item export. -/
def involvementPatterns (r : ReceiptData) : List InvMap :=
  r.items.map (fun item => item.involvedHousemates.getD (r.involvedHousemates.getD []))

/-- `hasMultipleRatios`: some item carries its own involvement and the
stringified patterns are not all equal. -/
def hasMultipleRatios (r : ReceiptData) : Bool :=
  r.items.any (fun item => item.involvedHousemates.isSome) &&
    decide (1 < (involvementPatterns r).dedup.length)

/-- `totalAmount` of the single-row branch: the explicit total if truthy,
otherwise the item-price sum plus the tax amount (`none` = `NaN`). -/
def clipboardTotalAmount (r : ReceiptData) : Option ℚ :=
  if jsTruthy r.total then parseJ r.total
  else
    let subtotal := r.items.foldl (fun acc i => optAdd acc (parsePriceJS i.price)) (some 0)
    let taxAmount := if jsTruthy r.tax then parseJ r.tax else some 0
    optAdd subtotal taxAmount

/-- The involved-participant name list of the single-row branch: `sharedWith`
when non-empty, else the names mapped to `1` in the receipt-level involvement
object when one exists, else the full roster. -/
def clipboardInvolvedNames (r : ReceiptData) : List String :=
  match r.sharedWith with
  | some l =>
    if 0 < l.length then l
    else clipboardInvolvedOfMap r
  | none => clipboardInvolvedOfMap r
where
  /-- The `else` chain shared by both `sharedWith` cases. -/
  clipboardInvolvedOfMap (r : ReceiptData) : List String :=
    match r.involvedHousemates with
    | some m => HOUSEMATES.filter (fun name => jget m name == some 1)
    | none => HOUSEMATES

/-- One participant column of the single-row branch. -/
def clipboardReceiptCol (r : ReceiptData) (involved : List String) (name : String) : String :=
  if ¬ involved.contains name then ""
  else
    match r.involvedHousemates.bind (fun m => jget m name) with
    | some v => if 1 ≤ v then intRepr v else (if involved.contains name then "1" else "")
    | none => if involved.contains name then "1" else ""

/-- The single row (tab-separated columns) of the `!hasMultipleRatios` branch
of `copyReceiptDataToClipboard`.  `fmtDate` stands for `formatDateForSheet`,
whose output depends on the wall clock (current-year short form). -/
def clipboardReceiptRow (fmtDate : Option String → String) (r : ReceiptData) : List String :=
  let involved := clipboardInvolvedNames r
  let perPerson : String :=
    if 0 < involved.length then
      toFixedOpt 4 ((clipboardTotalAmount r).map (fun t => t / (involved.length : ℚ)))
    else "#DIV/0!"
  [fmtDate r.date,
   jsOrStr r.vendor "Unknown Vendor",
   getExpenseTypeLabel (effExpenseType r),
   toFixedOpt 2 (clipboardTotalAmount r),
   jsOrStr r.paidBy "",
   perPerson,
   perPerson] ++
  HOUSEMATES.map (clipboardReceiptCol r involved)

/-- `parseFloat(item.price?.toString() || '0')` in the per-item branch. -/
def clipboardItemPrice (i : ReceiptItem) : Option ℚ := parseJor0 i.price

/-- The names involved in one item in the per-item branch. -/
def itemInvolvedNames (r : ReceiptData) (i : ReceiptItem) : List String :=
  HOUSEMATES.filter (fun name => jget (resolveItemInvolvement r i) name == some 1)

/-- One participant column of the per-item branch. -/
def clipboardItemCol (r : ReceiptData) (i : ReceiptItem) (name : String) : String :=
  let involved := itemInvolvedNames r i
  if ¬ involved.contains name then ""
  else
    match jget (resolveItemInvolvement r i) name with
    | some v => if 1 ≤ v then intRepr v else (if involved.contains name then "1" else "")
    | none => if involved.contains name then "1" else ""

/-- One row of the per-item branch of `copyReceiptDataToClipboard`. -/
def clipboardItemRow (fmtDate : Option String → String)
    (r : ReceiptData) (i : ReceiptItem) : List String :=
  let involved := itemInvolvedNames r i
  let perPerson : String :=
    if 0 < involved.length then
      toFixedOpt 4 ((clipboardItemPrice i).map (fun p => p / (involved.length : ℚ)))
    else "#DIV/0!"
  [fmtDate r.date,
   (if i.description = "" then jsOrStr r.vendor "Unknown Vendor" else i.description),
   getExpenseTypeLabel (effExpenseType r),
   toFixedOpt 2 (clipboardItemPrice i),
   jsOrStr r.paidBy "",
   perPerson,
   perPerson] ++
  HOUSEMATES.map (clipboardItemCol r i)

/-- `itemPrice <= 0` — the `continue` guard of the per-item loop (false for a
`NaN` price, which JavaScript does not order against `0`). -/
def itemPriceNonpos (i : ReceiptItem) : Bool :=
  match clipboardItemPrice i with
  | some q => decide (q ≤ 0)
  | none => false

/-- The per-item loop of `copyReceiptDataToClipboard`, skipping items whose
parsed price is `<= 0`. -/
def clipboardItemRows (fmtDate : Option String → String) (r : ReceiptData) :
    List ReceiptItem → List (List String)
  | [] => []
  | i :: rest =>
    if itemPriceNonpos i then clipboardItemRows fmtDate r rest
    else clipboardItemRow fmtDate r i :: clipboardItemRows fmtDate r rest

/-- The full clipboard content of `copyReceiptDataToClipboard`, as a list of
rows of tab-separated column strings (the source joins columns with `\t` and
rows with `\n`). -/
def copyReceiptContent (fmtDate : Option String → String) (r : ReceiptData) :
    List (List String) :=
  if hasMultipleRatios r then clipboardItemRows fmtDate r r.items
  else [clipboardReceiptRow fmtDate r]

/-! ## `EditableReceiptTable.tsx` -/

/-- The all-involved default map built by `HOUSEMATES.reduce` in the
component's initialisation. -/
def defaultAllInvolved : InvMap := HOUSEMATES.map (fun h => (h, 1))

/-- The `initialData` computation: default `taxable` to `true` and give every
item and the receipt an involvement map when missing (all participants
involved). -/
def initialReceiptData (d : ReceiptData) : ReceiptData :=
  { d with
    items := d.items.map (fun item =>
      { item with
        taxable := some (item.taxable.getD true)
        involvedHousemates := some (item.involvedHousemates.getD defaultAllInvolved) })
    involvedHousemates := some (d.involvedHousemates.getD defaultAllInvolved) }

/-- The `useEffect` that runs whenever receipt-level involvement changes:
items without their own involvement map receive a copy of the receipt-level
one. -/
def syncItemsWithReceiptInvolvement (r : ReceiptData) : ReceiptData :=
  match r.involvedHousemates with
  | none => r
  | some m =>
    { r with
      items := r.items.map (fun item =>
        { item with involvedHousemates := some (item.involvedHousemates.getD m) }) }

/-- `applyReceiptSharingToAll`: the explicit user-triggered bulk copy of the
receipt-level involvement into every item. -/
def applyReceiptSharingToAll (r : ReceiptData) : ReceiptData :=
  match r.involvedHousemates with
  | none => r
  | some m =>
    { r with items := r.items.map (fun item => { item with involvedHousemates := some m }) }

/-- The editable field names handled by `handleItemChange`. -/
inductive ItemField where
  | description
  | price
  | unit_price
  | quantity
deriving DecidableEq

/-- Write the raw input string into the chosen field. -/
def setItemField (i : ReceiptItem) : ItemField → String → ReceiptItem
  | ItemField.description, v => { i with description := v }
  | ItemField.price, v => { i with price := some (JVal.str v) }
  | ItemField.unit_price, v => { i with unit_price := some (JVal.str v) }
  | ItemField.quantity, v => { i with quantity := some (JVal.str v) }

/-- The quantity used by `handleItemChange`'s recomputation:
`parseFloat(value) || 1` for a quantity edit, else
`parseFloat(String(item.quantity)) || 1`. -/
def handleItemChangeQty (i : ReceiptItem) (field : ItemField) (value : String) : ℚ :=
  if field = ItemField.quantity then jsOr 1 (parseFloatS value)
  else jsOr 1 (parseJ i.quantity)

/-- The item-update core of `handleItemChange` from `EditableReceiptTable.tsx`:
set the edited field, then recompute the dependent one of
price/unit price/quantity. -/
def handleItemChange (i : ReceiptItem) (field : ItemField) (value : String) : ReceiptItem :=
  let i1 := setItemField i field value
  if field = ItemField.description then i1
  else
    let qty := handleItemChangeQty i1 field value
    if field = ItemField.unit_price then
      let unitPrice := jsOr 0 (parseFloatS value)
      { i1 with price := some (JVal.str (toFixed 2 (unitPrice * qty))) }
    else if field = ItemField.price ∧ jsTruthy i1.unit_price then
      let price := jsOr 0 (parseFloatS value)
      { i1 with unit_price := some (JVal.str (toFixed 2 (price / qty))) }
    else if field = ItemField.quantity ∧ jsTruthy i1.unit_price then
      let unitPrice := jsOr 0 (parseJ i1.unit_price)
      { i1 with price := some (JVal.str (toFixed 2 (unitPrice * qty))) }
    else i1

/-- The subtotal of `updateTotals` in `EditableReceiptTable.tsx`: sum of
`parseFloat(item.price) || 0` over all items, with no taxable distinction. -/
def subtotalEditable (items : List ReceiptItem) : ℚ :=
  (items.map (fun i => jsOr 0 (parseJ i.price))).sum

/-- The tax of `updateTotals` in `EditableReceiptTable.tsx`: a direct amount
when `useDirect`, else `subtotal * (parseFloat(customTaxRate) / 100 || 0)` on
the full subtotal. -/
def taxEditable (items : List ReceiptItem) (useDirect : Bool)
    (customTaxAmount : String) (customTaxRate : String) : ℚ :=
  if useDirect then jsOr 0 (parseFloatS customTaxAmount)
  else
    let taxRate := jsOr 0 ((parseFloatS customTaxRate).map (fun q => q / 100))
    subtotalEditable items * taxRate

/-- The `(subtotal, tax, total)` triple computed by `updateTotals` (stored
into the receipt as `toFixed(2)` strings). -/
def updateTotalsEditable (items : List ReceiptItem) (useDirect : Bool)
    (customTaxAmount : String) (customTaxRate : String) : ℚ × ℚ × ℚ :=
  let subtotal := subtotalEditable items
  let tax := taxEditable items useDirect customTaxAmount customTaxRate
  (subtotal, tax, subtotal + tax)

/-- `Object.values(involvedHousemates).filter(v => v === 1).length || 1` —
the divisor used by `calculateHousemateTotals`. -/
def involvedCountEditable (r : ReceiptData) : ℕ :=
  let c := (((r.involvedHousemates.getD []).map (fun kv => kv.2)).filter (fun v => v = 1)).length
  if c = 0 then 1 else c

/-- `calculateHousemateTotals` from `EditableReceiptTable.tsx`: the
receipt-level apportionment.  Returns each participant's share. -/
def calculateHousemateTotals (r : ReceiptData) : List (String × ℚ) :=
  let total := jsOr 0 (parseJ r.total)
  let m := r.involvedHousemates.getD []
  let perPerson := total / (involvedCountEditable r : ℚ)
  HOUSEMATES.map (fun h => (h, if jget m h == some 1 then perPerson else 0))

/-! ## `ReceiptResult.tsx` (totals verifier) -/

/-- The result of the totals verification in `ReceiptResult.tsx`. -/
structure VerifyResult where
  subtotal : ℚ
  total : ℚ
  totalDifference : ℚ
  mismatch : Bool
deriving DecidableEq

/-- The derived values of `ReceiptResult`: recomputed subtotal and total,
absolute difference against the receipt's own total, and the mismatch flag
(`totalDifference > 0.01`). -/
def receiptVerify (items : List ReceiptItem) (tax tip total : Option JVal) : VerifyResult :=
  let sub := (items.map (fun i => jsOr 0 (parseJ i.price))).sum
  let calcTotal := sub + jsOr 0 (parseJ tax) + jsOr 0 (parseJ tip)
  let orig := jsOr 0 (parseJ total)
  let diff := |calcTotal - orig|
  { subtotal := sub
    total := calcTotal
    totalDifference := diff
    mismatch := decide (diff > 1 / 100) }

/-! ## The `ReceiptList` variants (`src/unnamed/part_002`, `src/unnamed/part_003`) -/

/-- The price parse of the `ReceiptList` variant in `part_002`:
`parseFloat(price.replace(/[^0-9.]/g, '') || '0') || 0` for strings,
`price || 0` for numbers. -/
def priceRL (i : ReceiptItem) : ℚ :=
  match i.price with
  | some (JVal.str s) => jsOr 0 (parseFloatS (stripNonNeg s))
  | v => jsOr 0 (parseJ v)

/-- `totalSubtotal` of `updateTotals` in `part_002`. -/
def subtotalRL2 (items : List ReceiptItem) : ℚ := (items.map priceRL).sum

/-- `taxableSubtotal` of `updateTotals` in `part_002`: items with a falsy
`taxable` flag are skipped (`if (!item.taxable) return sum`). -/
def taxableSubtotalRL2 (items : List ReceiptItem) : ℚ :=
  (items.map (fun i => if i.taxable.getD false then priceRL i else 0)).sum

/-- The tax-rate values of the `TAX_RATES` table in `part_002`. -/
def TAX_RATES_vals : List ℚ :=
  [13/100, 12/100, 5/100, 14975/100000, 15/100, 15/100, 15/100, 15/100,
   11/100, 12/100, 0, -1, -2]

/-- The resolved rate in `part_002`:
`selectedTaxRate === -1 ? customTaxRate : TAX_RATES.find(...)?.value || 0.13`. -/
def rateRL2 (selected customRate : ℚ) : ℚ :=
  if selected = -1 then customRate
  else jsOr (13/100) (TAX_RATES_vals.find? (fun v => v == selected))

/-- The tax of `updateTotals` in `part_002`: a direct amount for selection
`-2`, else `parseFloat((taxableSubtotal * taxRate).toFixed(2))`. -/
def taxRL2 (items : List ReceiptItem) (selected customRate : ℚ)
    (customAmount : String) : ℚ :=
  if selected = -2 then jsOr 0 (parseFloatS customAmount)
  else round2 (taxableSubtotalRL2 items * rateRL2 selected customRate)

/-- `calculateSubtotal` of `part_003` (`NaN`-propagating: no `|| 0` guard). -/
def subtotalRL3 (items : List ReceiptItem) : Option ℚ :=
  items.foldl (fun acc i => optAdd acc (parsePriceJS i.price)) (some 0)

/-- `calculateTaxableSubtotal` of `part_003`: items with `taxable !== false`
are counted. -/
def taxableSubtotalRL3 (items : List ReceiptItem) : Option ℚ :=
  items.foldl
    (fun acc i => if i.taxable ≠ some false then optAdd acc (parsePriceJS i.price) else acc)
    (some 0)

/-- `calculateTax` of `part_003`: a direct amount for selection `-2`, else
`taxableSubtotal * rate` with the rate resolved from the selection
(custom for `-1`, the selection itself when `>= 0`, default `0.13`). -/
def taxRL3 (items : List ReceiptItem) (selected customRate : ℚ)
    (customAmount : String) : Option ℚ :=
  if selected = -2 then some (jsOr 0 (parseFloatS customAmount))
  else
    let rate := if selected = -1 then customRate
                else if 0 ≤ selected then selected else 13/100
    (taxableSubtotalRL3 items).map (fun s => s * rate)

/-- `calculateTotal` of `part_003`: subtotal plus tax. -/
def totalRL3 (items : List ReceiptItem) (selected customRate : ℚ)
    (customAmount : String) : Option ℚ :=
  optAdd (subtotalRL3 items) (taxRL3 items selected customRate customAmount)

/-! ## Apportionment shares

Numeric reading of the apportionment outputs.  In the per-item export branch a
participant's share of one row is the row's `toFixed(4)` per-person amount
(numerically `round4 (price / count)`) when their column is non-blank, `0`
otherwise; rows are only emitted for items with parsed price `> 0`, and an
item with a `NaN` price yields a `"NaN"` row (numeric reading `0`). -/

/-- One item's contribution to a participant's exported share. -/
def itemShareContribution (r : ReceiptData) (i : ReceiptItem) (name : String) : ℚ :=
  match clipboardItemPrice i with
  | some q =>
    if 0 < q ∧ (itemInvolvedNames r i).contains name then
      round4 (q / ((itemInvolvedNames r i).length : ℚ))
    else 0
  | none => 0

/-- A participant's total share read off the per-item export rows. -/
def computeSharesItems (r : ReceiptData) (name : String) : ℚ :=
  (r.items.map (fun i => itemShareContribution r i name)).sum

/-- The part of the receipt that the per-item export actually apportions: the
sum of the parsed prices of items that are kept (`price > 0`) and have at
least one involved participant. -/
def apportionedItemTotal (r : ReceiptData) : ℚ :=
  (r.items.map (fun i =>
    match clipboardItemPrice i with
    | some q => if 0 < q ∧ 0 < (itemInvolvedNames r i).length then q else 0
    | none => 0)).sum

/-! ## General list lemmas used by the conservation proofs -/

theorem list_sum_ite_count (l : List String) (P : String → Bool) (c : ℚ) :
    (l.map (fun x => if P x then c else 0)).sum = ((l.filter P).length : ℚ) * c := by
  induction l with
  | nil => simp
  | cons a t ih =>
    by_cases h : P a
    · simp [h, ih]
      ring
    · simp [h, ih]

theorem list_sum_map_add (l : List ReceiptItem) (g h : ReceiptItem → ℚ) :
    (l.map (fun i => g i + h i)).sum = (l.map g).sum + (l.map h).sum := by
  induction l with
  | nil => simp
  | cons a t ih => simp [ih]; ring

theorem list_sum_map_swap (l1 : List String) (l2 : List ReceiptItem)
    (f : ReceiptItem → String → ℚ) :
    (l1.map (fun p => (l2.map (fun i => f i p)).sum)).sum
      = (l2.map (fun i => (l1.map (f i)).sum)).sum := by
  induction l1 with
  | nil => simp
  | cons a t ih =>
    simp only [List.map_cons, List.sum_cons, ih]
    rw [← list_sum_map_add]

theorem list_abs_sum_le (l : List ReceiptItem) (g h : ReceiptItem → ℚ) (c : ℚ)
    (hb : ∀ i ∈ l, |g i - h i| ≤ c) :
    |(l.map g).sum - (l.map h).sum| ≤ l.length * c := by
  induction l with
  | nil => simp
  | cons a t ih =>
    have hrec := ih (fun i hi => hb i (List.mem_cons_of_mem a hi))
    have hsplit : (List.map g (a :: t)).sum - (List.map h (a :: t)).sum
        = (g a - h a) + ((t.map g).sum - (t.map h).sum) := by
      simp; ring
    calc |(List.map g (a :: t)).sum - (List.map h (a :: t)).sum|
        ≤ |g a - h a| + |(t.map g).sum - (t.map h).sum| := by
          rw [hsplit]; exact abs_add _ _
      _ ≤ c + t.length * c := add_le_add (hb a (List.mem_cons_self a t)) hrec
      _ = (a :: t).length * c := by simp; ring

theorem abs_round4_sub (x : ℚ) : |round4 x - x| ≤ 1 / 20000 := by
  rw [round4]
  have h := abs_sub_round (x * 10000)
  rw [show (round (x * 10000) : ℚ) / 10000 - x = ((round (x * 10000) : ℚ) - x * 10000) / 10000 by
    ring]
  rw [abs_div]
  rw [show |(10000 : ℚ)| = 10000 by norm_num]
  rw [abs_sub_comm]
  linarith

theorem itemInvolved_length_le (r : ReceiptData) (i : ReceiptItem) :
    (itemInvolvedNames r i).length ≤ 8 := by
  have h := List.length_filter_le
    (fun name => jget (resolveItemInvolvement r i) name == some 1) HOUSEMATES
  simpa [itemInvolvedNames, HOUSEMATES] using h

theorem contains_filter_of_mem {l : List String} {Q : String → Bool} {p : String}
    (hp : p ∈ l) : (l.filter Q).contains p = Q p := by
  rw [List.contains, List.elem_eq_mem]
  by_cases h : Q p
  · simp [List.mem_filter, hp, h]
  · simp [List.mem_filter, h]

theorem filter_contains_self (Q : String → Bool) :
    HOUSEMATES.filter (fun x => (HOUSEMATES.filter Q).contains x) = HOUSEMATES.filter Q :=
  List.filter_congr (fun _ hx => contains_filter_of_mem hx)

/-- Reference value: what one item contributes to the apportioned total. -/
def itemRefPrice (r : ReceiptData) (i : ReceiptItem) : ℚ :=
  match clipboardItemPrice i with
  | some q => if 0 < q ∧ 0 < (itemInvolvedNames r i).length then q else 0
  | none => 0

theorem item_share_close (r : ReceiptData) (i : ReceiptItem) :
    |(HOUSEMATES.map (fun p => itemShareContribution r i p)).sum - itemRefPrice r i|
      ≤ 1 / 2500 := by
  cases hp : clipboardItemPrice i with
  | none =>
    simp [itemShareContribution, itemRefPrice, hp]
  | some q =>
    by_cases hq : 0 < q
    · by_cases hl : 0 < (itemInvolvedNames r i).length
      · have hmap : HOUSEMATES.map (fun p => itemShareContribution r i p)
            = HOUSEMATES.map (fun p =>
                if (itemInvolvedNames r i).contains p
                then round4 (q / ((itemInvolvedNames r i).length : ℚ)) else 0) := by
          apply List.map_congr_left
          intro x _
          simp [itemShareContribution, hp, hq]
        rw [hmap, list_sum_ite_count]
        have hfc : HOUSEMATES.filter (fun p => (itemInvolvedNames r i).contains p)
            = itemInvolvedNames r i := by
          rw [itemInvolvedNames]
          exact filter_contains_self _
        rw [hfc]
        rw [itemRefPrice, hp]
        simp only [hq, hl, and_self, if_true]
        have hn : (0 : ℚ) < ((itemInvolvedNames r i).length : ℚ) := by exact_mod_cast hl
        have h8 : ((itemInvolvedNames r i).length : ℚ) ≤ 8 := by
          exact_mod_cast itemInvolved_length_le r i
        have hq2 : ((itemInvolvedNames r i).length : ℚ)
            * (q / ((itemInvolvedNames r i).length : ℚ)) = q := by
          field_simp
        have hb := abs_round4_sub (q / ((itemInvolvedNames r i).length : ℚ))
        have key : ((itemInvolvedNames r i).length : ℚ)
              * round4 (q / ((itemInvolvedNames r i).length : ℚ)) - q
            = ((itemInvolvedNames r i).length : ℚ)
              * (round4 (q / ((itemInvolvedNames r i).length : ℚ))
                  - q / ((itemInvolvedNames r i).length : ℚ)) := by
          rw [mul_sub, hq2]
        calc |((itemInvolvedNames r i).length : ℚ)
                * round4 (q / ((itemInvolvedNames r i).length : ℚ)) - q|
            = ((itemInvolvedNames r i).length : ℚ)
                * |round4 (q / ((itemInvolvedNames r i).length : ℚ))
                    - q / ((itemInvolvedNames r i).length : ℚ)| := by
              rw [key, abs_mul, abs_of_pos hn]
          _ ≤ 8 * (1 / 20000) := by
              apply mul_le_mul h8 hb (abs_nonneg _) (by norm_num)
          _ ≤ 1 / 2500 := by norm_num
      · have hnil : itemInvolvedNames r i = [] :=
          List.length_eq_zero.mp (by omega)
        simp [itemShareContribution, itemRefPrice, hp, hq, hl, hnil]
    · simp [itemShareContribution, itemRefPrice, hp, hq]

theorem item_shares_sum_close (r : ReceiptData) :
    |(HOUSEMATES.map (computeSharesItems r)).sum - apportionedItemTotal r|
      ≤ (1 / 100) * r.items.length := by
  have hswap := list_sum_map_swap HOUSEMATES r.items (fun i p => itemShareContribution r i p)
  have hL : (HOUSEMATES.map (computeSharesItems r)).sum
      = (r.items.map (fun i => (HOUSEMATES.map (fun p => itemShareContribution r i p)).sum)).sum := by
    rw [← hswap]
    rfl
  have hR : apportionedItemTotal r = (r.items.map (fun i => itemRefPrice r i)).sum := by
    rw [apportionedItemTotal]
    rfl
  rw [hL, hR]
  have hb := list_abs_sum_le r.items
    (fun i => (HOUSEMATES.map (fun p => itemShareContribution r i p)).sum)
    (fun i => itemRefPrice r i) (1 / 2500)
    (fun i _ => item_share_close r i)
  calc |(r.items.map (fun i => (HOUSEMATES.map (fun p => itemShareContribution r i p)).sum)).sum
        - (r.items.map (fun i => itemRefPrice r i)).sum|
      ≤ r.items.length * (1 / 2500) := hb
    _ ≤ (1 / 100) * r.items.length := by
        have : (0 : ℚ) ≤ r.items.length := by positivity
        nlinarith

/-- Receipt-level conservation core: when the involvement object's value count
and the roster-lookup count agree (as they do for any well-formed involvement
object keyed by the roster) and at least one participant is involved, the
per-person breakdown sums back to the parsed total exactly. -/
theorem receipt_shares_sum_eq (r : ReceiptData)
    (hagree : (HOUSEMATES.filter
        (fun h => jget (r.involvedHousemates.getD []) h == some 1)).length
      = (((r.involvedHousemates.getD []).map (fun kv => kv.2)).filter
          (fun v => v = 1)).length)
    (hpos : 0 < (((r.involvedHousemates.getD []).map (fun kv => kv.2)).filter
        (fun v => v = 1)).length) :
    ((calculateHousemateTotals r).map (fun kv => kv.2)).sum = jsOr 0 (parseJ r.total) := by
  rw [calculateHousemateTotals]
  rw [List.map_map]
  have hmap : ((fun kv : String × ℚ => kv.2) ∘
      (fun h => (h, if jget (r.involvedHousemates.getD []) h == some 1
        then jsOr 0 (parseJ r.total) / (involvedCountEditable r : ℚ) else 0)))
      = fun h => if jget (r.involvedHousemates.getD []) h == some 1
        then jsOr 0 (parseJ r.total) / (involvedCountEditable r : ℚ) else 0 := rfl
  rw [hmap, list_sum_ite_count, hagree]
  have hcount : involvedCountEditable r
      = (((r.involvedHousemates.getD []).map (fun kv => kv.2)).filter
          (fun v => v = 1)).length := by
    rw [involvedCountEditable]
    simp only [Nat.pos_iff_ne_zero] at hpos
    simp [hpos]
  rw [hcount]
  have hne : ((((r.involvedHousemates.getD []).map (fun kv => kv.2)).filter
      (fun v => v = 1)).length : ℚ) ≠ 0 := by
    exact_mod_cast Nat.pos_iff_ne_zero.mp hpos
  field_simp

/-! ## Claim C1 -/

/-- A receipt in item-level export mode: two items with different involvement
patterns, subtotal 15, tax 1.95, total 16.95. -/
def exC1 : ReceiptData :=
  { items :=
      [{ description := "a", price := some (JVal.num 10),
         involvedHousemates := some [("Timothy", 1)] },
       { description := "b", price := some (JVal.num 5),
         involvedHousemates := some [("Timothy", 1), ("Rachel", 1)] }]
    total := some (JVal.num (339 / 20))
    tax := some (JVal.num (39 / 20))
    involvedHousemates := some [("Timothy", 1), ("Rachel", 1)] }

/-- C1 counterexample: in item-level mode the exported per-item rows carry the
raw item prices only — the tax is never folded in — so the shares sum to 15
while the receipt total is 16.95.  The gap 1.95 exceeds 0.01 times any count
of apportioned units (2 items, 8 participants, or 16 participant-cells give a
tolerance of at most 0.16), refuting conservation as claimed. -/
theorem C1_counterexample :
    hasMultipleRatios exC1 = true ∧
    (HOUSEMATES.map (computeSharesItems exC1)).sum = 15 ∧
    jsOr 0 (parseJ exC1.total) = 339 / 20 ∧
    ¬ (|(HOUSEMATES.map (computeSharesItems exC1)).sum - jsOr 0 (parseJ exC1.total)|
        ≤ 16 / 100) := by
  have hsum : (HOUSEMATES.map (computeSharesItems exC1)).sum = 15 := by
    simp [computeSharesItems, itemShareContribution, exC1, clipboardItemPrice, parseJor0,
      itemInvolvedNames, resolveItemInvolvement, jget, HOUSEMATES]
    norm_num [round4, round_eq]
  have htot : jsOr 0 (parseJ exC1.total) = 339 / 20 := by
    norm_num [jsOr, parseJ, exC1]
  refine ⟨by decide, hsum, htot, ?_⟩
  rw [hsum, htot]
  rw [show |(15 : ℚ) - 339 / 20| = 39 / 20 by rw [abs_of_neg] <;> norm_num]
  norm_num

/-- C1 (amended): conservation holds only for the receipt-level engine: for
any receipt whose involvement object is well formed (its value count matches
the roster-lookup count) with at least one involved participant, the shares of
`calculateHousemateTotals` sum exactly to the parsed total.  The item-level
export instead apportions only the sum of the kept item prices (parsed price
`> 0`, at least one involved participant) — tax excluded — and conserves that
quantity to within `0.01 × item count` (per-row `toFixed(4)` rounding). -/
theorem C1_conservation_amended :
    (∀ r : ReceiptData,
      (HOUSEMATES.filter
          (fun h => jget (r.involvedHousemates.getD []) h == some 1)).length
        = (((r.involvedHousemates.getD []).map (fun kv => kv.2)).filter
            (fun v => v = 1)).length →
      0 < (((r.involvedHousemates.getD []).map (fun kv => kv.2)).filter
          (fun v => v = 1)).length →
      ((calculateHousemateTotals r).map (fun kv => kv.2)).sum = jsOr 0 (parseJ r.total)) ∧
    (∀ r : ReceiptData,
      |(HOUSEMATES.map (computeSharesItems r)).sum - apportionedItemTotal r|
        ≤ (1 / 100) * r.items.length) :=
  ⟨receipt_shares_sum_eq, item_shares_sum_close⟩

/-- A receipt with two involved participants and total 12 for the C1 witness. -/
def wC1 : ReceiptData :=
  { total := some (JVal.num 12)
    involvedHousemates := some [("Timothy", 1), ("Rachel", 1)] }

/-- Witness for C1: at a concrete receipt both conjuncts hold with their
hypotheses discharged. -/
theorem C1_witness :
    ((calculateHousemateTotals wC1).map (fun kv => kv.2)).sum = 12 ∧
    |(HOUSEMATES.map (computeSharesItems wC1)).sum - apportionedItemTotal wC1|
      ≤ (1 / 100) * wC1.items.length := by
  constructor
  · have h := C1_conservation_amended.1 wC1 (by decide) (by decide)
    rw [h]
    norm_num [jsOr, parseJ, wC1]
  · exact C1_conservation_amended.2 wC1

/-! ## Claim C2 -/

/-- A receipt requesting a split with zero involved participants. -/
def exC2 : ReceiptData :=
  { total := some (JVal.num 10)
    involvedHousemates := some (HOUSEMATES.map (fun h => (h, 0))) }

/-- C2 counterexample: with zero involved participants the in-table
apportionment (`calculateHousemateTotals`) surfaces no error at all — its
return type has no error channel — and instead silently defaults the divisor
to 1 (`... || 1`) and returns a zero share for every participant, contradicting
the claim that the engine surfaces an explicit error result rather than
silently zeroed shares. -/
theorem C2_counterexample :
    involvedCountEditable exC2 = 1 ∧
    calculateHousemateTotals exC2 = HOUSEMATES.map (fun h => (h, 0)) := by
  constructor
  · decide
  · simp [calculateHousemateTotals, exC2, jget, HOUSEMATES]

/-- C2 (amended): only the clipboard export surfaces an explicit error
marker: with no involved participants the receipt-level row's two per-person
columns are the string `#DIV/0!`.  The table's per-person breakdown instead
silently defaults the divisor to 1 and returns a zero share for every
participant whenever the involvement object maps no one to 1. -/
theorem C2_underflow_amended :
    (∀ (fmtDate : Option String → String) (r : ReceiptData),
      clipboardInvolvedNames r = [] →
      (clipboardReceiptRow fmtDate r).get? 5 = some "#DIV/0!" ∧
      (clipboardReceiptRow fmtDate r).get? 6 = some "#DIV/0!") ∧
    (∀ r : ReceiptData,
      (∀ kv ∈ r.involvedHousemates.getD [], kv.2 ≠ 1) →
      calculateHousemateTotals r = HOUSEMATES.map (fun h => (h, 0))) := by
  constructor
  · intro fmtDate r h
    constructor <;> simp [clipboardReceiptRow, h]
  · intro r hall
    rw [calculateHousemateTotals]
    apply List.map_congr_left
    intro h _
    have hfalse : (jget (r.involvedHousemates.getD []) h == some 1) = false := by
      rw [beq_eq_false_iff_ne]
      intro hj
      rw [jget] at hj
      cases hfind : (r.involvedHousemates.getD []).find? (fun kv => kv.1 == h) with
      | none => rw [hfind] at hj; simp at hj
      | some kv =>
        rw [hfind] at hj
        simp only [Option.map] at hj
        have hkv2 : kv.2 = 1 := by injection hj
        exact hall kv (List.mem_of_find?_eq_some hfind) hkv2
    simp [hfalse]

/-- A receipt whose involvement object maps its only key to 0. -/
def wC2 : ReceiptData :=
  { total := some (JVal.num 10)
    involvedHousemates := some [("Timothy", 0)] }

/-- Witness for C2 at a concrete zero-involvement receipt. -/
theorem C2_witness :
    (clipboardReceiptRow (fun _ => "") wC2).get? 5 = some "#DIV/0!" ∧
    calculateHousemateTotals wC2 = HOUSEMATES.map (fun h => (h, 0)) :=
  ⟨(C2_underflow_amended.1 (fun _ => "") wC2 (by decide)).1,
   C2_underflow_amended.2 wC2 (by decide)⟩

/-! ## Claim C3 -/

/-- Two items, one taxable and one explicitly non-taxable. -/
def exC3items : List ReceiptItem :=
  [{ description := "a", price := some (JVal.num 10), taxable := some true },
   { description := "b", price := some (JVal.num 5), taxable := some false }]

/-- C3 counterexample: with a non-taxable item present and rate 13 the claim
demands `0.13 × 10 = 1.30`, but `updateTotals` of `EditableReceiptTable.tsx`
applies the rate to the full subtotal and yields `0.13 × 15 = 1.95`. -/
theorem C3_counterexample :
    (∃ i ∈ exC3items, i.taxable = some false) ∧
    taxEditable exC3items false "0.00" "13" = 39 / 20 ∧
    taxEditable exC3items false "0.00" "13" ≠ 13 / 10 := by
  have h13 : parseFloatS "13" = some 13 := by
    refine parseFloatS_eq_of_parts _ ⟨false, ['1', '3'], [], 0⟩ _ (by decide) ?_
    have h1 : digitsToNat ['1', '3'] = 13 := by decide
    have h2 : digitsToNat ([] : List Char) = 0 := by decide
    simp [partsVal, h1, h2]
  have htax : taxEditable exC3items false "0.00" "13" = 39 / 20 := by
    rw [taxEditable]
    simp only [Bool.false_eq_true, if_false, h13]
    norm_num [subtotalEditable, exC3items, parseJ, jsOr]
  refine ⟨by decide, htax, ?_⟩
  rw [htax]
  norm_num

/-- C3 (amended): the taxable-subtotal rule holds only in the `ReceiptList`
variants.  Their rate-based tax is the rate times the taxable-items subtotal,
which coincides with the full subtotal exactly when no item is marked
non-taxable.  The main editable table's `updateTotals` is insensitive to the
taxable flags altogether: forcing every item taxable leaves its tax
unchanged (it always taxes the full subtotal). -/
theorem C3_tax_amended :
    (∀ (items : List ReceiptItem) (useDirect : Bool) (amt rate : String),
      taxEditable items useDirect amt rate
        = taxEditable (items.map (fun i => { i with taxable := some true }))
            useDirect amt rate) ∧
    (∀ (items : List ReceiptItem) (sel custom : ℚ) (amt : String),
      0 ≤ sel → (∀ i ∈ items, i.taxable ≠ some false) →
      taxRL3 items sel custom amt = (subtotalRL3 items).map (fun s => s * sel)) ∧
    (∀ (items : List ReceiptItem) (sel custom : ℚ) (amt : String),
      sel ≠ -2 → (∀ i ∈ items, i.taxable = some true) →
      taxRL2 items sel custom amt
        = round2 (subtotalRL2 items * rateRL2 sel custom)) := by
  refine ⟨?_, ?_, ?_⟩
  · intro items useDirect amt rate
    rw [taxEditable, taxEditable]
    have hsub : subtotalEditable (items.map (fun i => { i with taxable := some true }))
        = subtotalEditable items := by
      rw [subtotalEditable, subtotalEditable, List.map_map]
      rfl
    rw [hsub]
  · intro items sel custom amt hsel hall
    have key : ∀ (l : List ReceiptItem) (acc : Option ℚ),
        (∀ i ∈ l, i.taxable ≠ some false) →
        l.foldl (fun acc i =>
            if i.taxable ≠ some false then optAdd acc (parsePriceJS i.price) else acc) acc
          = l.foldl (fun acc i => optAdd acc (parsePriceJS i.price)) acc := by
      intro l
      induction l with
      | nil => intro acc _; rfl
      | cons a t ih =>
        intro acc hall2
        have ha : a.taxable ≠ some false := hall2 a (List.mem_cons_self a t)
        simp only [List.foldl_cons]
        rw [if_pos ha]
        exact ih _ (fun i hi => hall2 i (List.mem_cons_of_mem a hi))
    have hts : taxableSubtotalRL3 items = subtotalRL3 items := by
      rw [taxableSubtotalRL3, subtotalRL3]
      exact key items (some 0) hall
    have h2 : sel ≠ -2 := by intro h; rw [h] at hsel; norm_num at hsel
    have h1 : sel ≠ -1 := by intro h; rw [h] at hsel; norm_num at hsel
    rw [taxRL3]
    simp only [if_neg h2, if_neg h1, if_pos hsel]
    rw [hts]
  · intro items sel custom amt hsel hall
    have hts : taxableSubtotalRL2 items = subtotalRL2 items := by
      rw [taxableSubtotalRL2, subtotalRL2]
      apply congrArg
      apply List.map_congr_left
      intro i hi
      rw [hall i hi]
      rfl
    rw [taxRL2, if_neg hsel, hts]

/-- A single taxable item of price 10 for the C3 witness. -/
def wC3items : List ReceiptItem :=
  [{ description := "x", price := some (JVal.num 10), taxable := some true }]

/-- Witness for C3 at a concrete all-taxable item list and preset rate. -/
theorem C3_witness :
    (taxEditable wC3items false "0" "13"
      = taxEditable (wC3items.map (fun i => { i with taxable := some true })) false "0" "13") ∧
    taxRL3 wC3items (13 / 100) 0 "0"
      = (subtotalRL3 wC3items).map (fun s => s * (13 / 100)) ∧
    taxRL2 wC3items (13 / 100) 0 "0"
      = round2 (subtotalRL2 wC3items * rateRL2 (13 / 100) 0) :=
  ⟨C3_tax_amended.1 wC3items false "0" "13",
   C3_tax_amended.2.1 wC3items (13 / 100) 0 "0" (by norm_num) (by decide),
   C3_tax_amended.2.2 wC3items (13 / 100) 0 "0" (by norm_num) (by decide)⟩

/-! ## Claim C4 -/

/-- C4 counterexample: `sanitize({})` does not return the zeroed-out complete
shape the claim promises.  Only `tax` is populated (with 0); `items`,
`subtotal` and `total` stay `undefined` rather than `[]`/`0`/`0`. -/
theorem C4_counterexample :
    (sanitizeOcrResponse id {}).items ≠ some [] ∧
    (sanitizeOcrResponse id {}).subtotal ≠ some (JVal.num 0) ∧
    (sanitizeOcrResponse id {}).total ≠ some (JVal.num 0) ∧
    sanitizeOcrResponse id {} = { tax := some (JVal.num 0) } := by
  have hz : round2 (0 * (13 / 100)) = 0 := by
    rw [round2]; norm_num
  have h : sanitizeOcrResponse id {}
      = { tax := some (JVal.num (round2 (0 * (13 / 100)))) } := rfl
  rw [hz] at h
  refine ⟨?_, ?_, ?_, h⟩ <;> rw [h] <;> simp

/-- C4 (amended): the sanitizer is a total function (it can never throw), and
on the empty payload it returns a payload whose only populated field is
`tax = 0`; `items`, `subtotal` and `total` are left `undefined`, not zeroed
(the subtotal backfill only fires when `items` is an array, and the total
backfill only fires when `subtotal` is truthy). -/
theorem C4_sanitize_empty_amended :
    ∀ normDate : String → String,
      sanitizeOcrResponse normDate {} = ({ tax := some (JVal.num 0) } : SanPayload) := by
  intro normDate
  have hz : round2 (0 * (13 / 100)) = 0 := by
    rw [round2]; norm_num
  have h : sanitizeOcrResponse normDate {}
      = { tax := some (JVal.num (round2 (0 * (13 / 100)))) } := rfl
  rw [hz] at h
  exact h

/-! ## Claim C8 -/

/-- A payload with an explicit numeric tax of 0 and subtotal 100. -/
def exC8 : OcrPayload :=
  { subtotal := some (JVal.num 100), tax := some (JVal.num 0) }

/-- C8 counterexample: a tax that is present but `0` is falsy, so the
sanitizer overwrites it with 13% of the subtotal (13.00 here) instead of
leaving the present value unchanged as the claim states. -/
theorem C8_counterexample :
    exC8.tax = some (JVal.num 0) ∧
    (sanitizeOcrResponse id exC8).tax = some (JVal.num 13) ∧
    (sanitizeOcrResponse id exC8).tax ≠ exC8.tax := by
  have hsub : sanSubtotal exC8 = some (JVal.num 100) := by
    rw [sanSubtotal, if_neg (by norm_num [jsTruthy, exC8])]
    rfl
  have hval : round2 (100 * (13 / 100)) = 13 := by
    rw [show (100 : ℚ) * (13 / 100) = 13 by norm_num, round2,
      show round ((13 : ℚ) * 100) = 1300 by rw [round_eq]; norm_num]
    norm_num
  have htax : (sanitizeOcrResponse id exC8).tax = some (JVal.num 13) := by
    show sanTax exC8 = _
    rw [sanTax, if_pos (by norm_num [jsTruthy, exC8]), hsub]
    show some (JVal.num (round2 (100 * (13 / 100)))) = _
    rw [hval]
  refine ⟨rfl, htax, ?_⟩
  rw [htax, show exC8.tax = some (JVal.num 0) from rfl]
  simp

/-- C8 (amended): the sanitizer recomputes the tax as 13% of the sanitized
subtotal (rounded to 2 decimals) whenever the incoming tax is falsy —
absent, `NaN`, the empty string, or the present number `0` — and defaults it
to `0` when the subtotal is also undefined.  A truthy tax is kept: a nonzero
number verbatim, a string stripped and parsed. -/
theorem C8_default_tax_amended :
    (∀ (normDate : String → String) (p : OcrPayload) (q : ℚ),
      jsTruthy p.tax = false →
      (sanitizeOcrResponse normDate p).subtotal = some (JVal.num q) →
      (sanitizeOcrResponse normDate p).tax = some (JVal.num (round2 (q * (13 / 100))))) ∧
    (∀ (normDate : String → String) (p : OcrPayload),
      jsTruthy p.tax = false →
      (sanitizeOcrResponse normDate p).subtotal = none →
      (sanitizeOcrResponse normDate p).tax = some (JVal.num 0)) ∧
    (∀ (normDate : String → String) (p : OcrPayload) (q : ℚ),
      p.tax = some (JVal.num q) → q ≠ 0 →
      (sanitizeOcrResponse normDate p).tax = some (JVal.num q)) ∧
    (∀ (normDate : String → String) (p : OcrPayload) (s : String),
      p.tax = some (JVal.str s) → s ≠ "" →
      (sanitizeOcrResponse normDate p).tax = some (numOrNan (parseFloatS (stripMoney s)))) := by
  refine ⟨?_, ?_, ?_, ?_⟩
  · intro normDate p q hfalsy hq
    replace hq : sanSubtotal p = some (JVal.num q) := hq
    show sanTax p = _
    rw [sanTax, if_pos (by simp [hfalsy]), hq]
  · intro normDate p hfalsy hq
    replace hq : sanSubtotal p = none := hq
    show sanTax p = _
    rw [sanTax, if_pos (by simp [hfalsy]), hq]
    have hz : round2 (0 * (13 / 100)) = 0 := by
      rw [round2]; norm_num
    rw [hz]
  · intro normDate p q hp hq0
    have htruthy : jsTruthy p.tax = true := by
      rw [hp]; simp [jsTruthy, hq0]
    show sanTax p = _
    rw [sanTax, if_neg (by simp [htruthy]), hp]
  · intro normDate p s hp hs
    have htruthy : jsTruthy p.tax = true := by
      rw [hp]; simp [jsTruthy, hs]
    show sanTax p = _
    rw [sanTax, if_neg (by simp [htruthy]), hp]

/-- Witness for C8: the three main branches at concrete payloads. -/
theorem C8_witness :
    (sanitizeOcrResponse id { subtotal := some (JVal.num 100) }).tax
      = some (JVal.num (round2 (100 * (13 / 100)))) ∧
    (sanitizeOcrResponse id {}).tax = some (JVal.num 0) ∧
    (sanitizeOcrResponse id { tax := some (JVal.num 5) }).tax = some (JVal.num 5) := by
  refine ⟨?_, ?_, ?_⟩
  · apply C8_default_tax_amended.1 id { subtotal := some (JVal.num 100) } 100 rfl
    show sanSubtotal { subtotal := some (JVal.num 100) } = some (JVal.num 100)
    rw [sanSubtotal, if_neg (by norm_num [jsTruthy])]
  · exact C8_default_tax_amended.2.1 id {} rfl rfl
  · exact C8_default_tax_amended.2.2.1 id { tax := some (JVal.num 5) } 5 rfl (by norm_num)

/-! ## Claim C5 -/

/-- Characters that can survive the `ReceiptList` numeric-input strip. -/
def goodChar (c : Char) : Bool := c.isDigit || c = '.'

/-- `parts[0] + '.' + parts.slice(1).join('')`: keep the first decimal point
and drop the rest. -/
def collapseDots (l : List Char) : List Char :=
  l.takeWhile (fun c => c ≠ '.') ++
    '.' :: ((l.dropWhile (fun c => c ≠ '.')).tail.filter (fun c => c ≠ '.'))

/-- `parts[0] + '.' + parts[1].substring(0, 2)`: cap the fraction at two
digits. -/
def capFrac (l : List Char) : List Char :=
  l.takeWhile (fun c => c ≠ '.') ++
    '.' :: ((l.dropWhile (fun c => c ≠ '.')).tail.takeWhile (fun c => c ≠ '.')).take 2

/-- The input sanitisation of `handleNumericInput` in the `ReceiptList`
variants: strip everything but digits and dots, keep only the first decimal
point, and cap money fields at two fraction digits. -/
def sanitizeNumericInput (field : ItemField) (value : String) : String :=
  let s1 := (stripNonNeg value).data
  let s2 := if 1 < (s1.filter (fun c => c = '.')).length then collapseDots s1 else s1
  let s3 :=
    if (field = ItemField.price ∨ field = ItemField.unit_price) ∧ s2.contains '.' then
      if 2 < ((s2.dropWhile (fun c => c ≠ '.')).tail.takeWhile (fun c => c ≠ '.')).length then
        capFrac s2
      else s2
    else s2
  ⟨s3⟩

/-- The item-update core of `handleNumericInput` from the `ReceiptList`
variants: write the sanitised string into the field, then recompute the
dependent field. -/
def handleNumericInput (i : ReceiptItem) (field : ItemField) (value : String) : ReceiptItem :=
  let sv := sanitizeNumericInput field value
  let i1 := setItemField i field sv
  if field = ItemField.unit_price then
    let quantity := jsOr 1 (parseJ (if jsTruthy i1.quantity then i1.quantity
      else some (JVal.str "1")))
    let unitPrice := jsOr 0 (parseFloatS sv)
    { i1 with price := some (JVal.str (toFixed 2 (quantity * unitPrice))) }
  else if field = ItemField.quantity then
    let quantity := jsOr 1 (parseFloatS sv)
    let unitPrice := jsOr 0 (parseJ (if jsTruthy i1.unit_price then i1.unit_price
      else some (JVal.str "0")))
    { i1 with price := some (JVal.str (toFixed 2 (quantity * unitPrice))) }
  else if field = ItemField.price then
    let totalPrice := jsOr 0 (parseFloatS sv)
    let quantity := jsOr 1 (parseJ (if jsTruthy i1.quantity then i1.quantity
      else some (JVal.str "1")))
    { i1 with unit_price := some (JVal.str (toFixed 2 (totalPrice / quantity))) }
  else i1

theorem jsOr_one_ne_zero (x : Option ℚ) : jsOr 1 x ≠ 0 := by
  cases x with
  | none => simp [jsOr]
  | some q =>
    rw [jsOr]
    by_cases h : q = 0
    · simp [h]
    · simp [h]

theorem splitSign_nonneg {s : List Char} (h : ∀ c ∈ s, goodChar c) :
    (splitSign s).1 = false := by
  cases s with
  | nil => rfl
  | cons c t =>
    have hc := h c (List.mem_cons_self c t)
    have h1 : c ≠ '-' := by
      intro he; subst he; exact absurd hc (by decide)
    have h2 : c ≠ '+' := by
      intro he; subst he; exact absurd hc (by decide)
    simp [splitSign, h1, h2]

theorem parseParts_neg_false {l : List Char} (h : ∀ c ∈ l, goodChar c) {p : NumParts}
    (hp : parseParts l = some p) : p.neg = false := by
  have hs0 : ∀ c ∈ l.dropWhile (fun c => c = ' ' || c = '\t' || c = '\n' || c = '\r'),
      goodChar c := fun c hc => h c ((List.dropWhile_sublist _).subset hc)
  have hsf := splitSign_nonneg hs0
  unfold parseParts at hp
  dsimp only at hp
  split at hp
  · exact absurd hp (by simp)
  · rw [Option.some.injEq] at hp
    rw [← hp]
    exact hsf

theorem partsVal_nonneg {p : NumParts} (h : p.neg = false) : 0 ≤ partsVal p := by
  rw [partsVal, h]
  simp only [Bool.false_eq_true, if_false]
  have h10 : (0 : ℚ) < (10 : ℚ) ^ p.expo := zpow_pos (by norm_num) _
  have hbase : (0 : ℚ) ≤ (digitsToNat p.intDs : ℚ)
      + (digitsToNat p.fracDs : ℚ) / (10 : ℚ) ^ p.fracDs.length := by positivity
  exact mul_nonneg hbase h10.le

theorem stripNonNeg_chars (s : String) : ∀ c ∈ (stripNonNeg s).data, goodChar c := by
  intro c hc
  have : c ∈ s.data.filter (fun c => c.isDigit || c = '.') := hc
  exact (List.mem_filter.mp this).2

theorem collapseDots_chars {l : List Char} (h : ∀ c ∈ l, goodChar c) :
    ∀ c ∈ collapseDots l, goodChar c := by
  intro c hc
  rw [collapseDots] at hc
  rcases List.mem_append.mp hc with h1 | h2
  · exact h c ((List.takeWhile_sublist _).subset h1)
  · rcases List.mem_cons.mp h2 with rfl | h3
    · decide
    · have hm : c ∈ (l.dropWhile (fun c => c ≠ '.')).tail :=
        (List.filter_sublist _).subset h3
      exact h c ((List.dropWhile_sublist _).subset ((List.tail_sublist _).subset hm))

theorem capFrac_chars {l : List Char} (h : ∀ c ∈ l, goodChar c) :
    ∀ c ∈ capFrac l, goodChar c := by
  intro c hc
  rw [capFrac] at hc
  rcases List.mem_append.mp hc with h1 | h2
  · exact h c ((List.takeWhile_sublist _).subset h1)
  · rcases List.mem_cons.mp h2 with rfl | h3
    · decide
    · have hm : c ∈ (l.dropWhile (fun c => c ≠ '.')).tail :=
        (List.takeWhile_sublist _).subset ((List.take_sublist _ _).subset h3)
      exact h c ((List.dropWhile_sublist _).subset ((List.tail_sublist _).subset hm))

theorem sanitizeNumericInput_chars (field : ItemField) (value : String) :
    ∀ c ∈ (sanitizeNumericInput field value).data, goodChar c := by
  intro c hc
  rw [sanitizeNumericInput] at hc
  simp only at hc
  have hs1 : ∀ c ∈ (stripNonNeg value).data, goodChar c := stripNonNeg_chars value
  split at hc
  · split at hc
    · split at hc
      · exact capFrac_chars (collapseDots_chars hs1) c hc
      · exact collapseDots_chars hs1 c hc
    · exact collapseDots_chars hs1 c hc
  · split at hc
    · split at hc
      · exact capFrac_chars hs1 c hc
      · exact hs1 c hc
    · exact hs1 c hc

/-- An item holding a negative stored quantity, as typed through the editable
table's unrestricted text input. -/
def exC5 : ReceiptItem :=
  { description := "x", price := some (JVal.str "10.00"),
    unit_price := some (JVal.str "2.00"), quantity := some (JVal.str "-2") }

/-- C5 counterexample: editing the price of an item whose quantity is `-2`
divides by `-2`, not by `1`: the derived unit price is `-5.00`, where the
claim (quantity `≤ 0` treated as `1`) would give `10.00`.  Only a zero or
unparseable quantity falls back to `1` (`parseFloat(...) || 1`); a negative
one is used as-is. -/
theorem C5_counterexample :
    handleItemChangeQty (setItemField exC5 ItemField.price "10") ItemField.price "10" = -2 ∧
    (handleItemChange exC5 ItemField.price "10").unit_price = some (JVal.str "-5.00") ∧
    (handleItemChange exC5 ItemField.price "10").unit_price ≠ some (JVal.str "10.00") := by
  have hm2 : parseFloatS "-2" = some (-2) := by
    refine parseFloatS_eq_of_parts _ ⟨true, ['2'], [], 0⟩ _ (by decide) ?_
    have h1 : digitsToNat ['2'] = 2 := by decide
    have h2 : digitsToNat ([] : List Char) = 0 := by decide
    simp [partsVal, h1, h2]
  have h10 : parseFloatS "10" = some 10 := by
    refine parseFloatS_eq_of_parts _ ⟨false, ['1', '0'], [], 0⟩ _ (by decide) ?_
    have h1 : digitsToNat ['1', '0'] = 10 := by decide
    have h2 : digitsToNat ([] : List Char) = 0 := by decide
    simp [partsVal, h1, h2]
  have hqty : handleItemChangeQty (setItemField exC5 ItemField.price "10")
      ItemField.price "10" = -2 := by
    rw [handleItemChangeQty, if_neg (by decide)]
    show jsOr 1 (parseFloatS "-2") = -2
    rw [hm2, jsOr]
    norm_num
  have hfix : toFixed 2 (-5 : ℚ) = "-5.00" := by
    rw [toFixed_eq_of_round 2 _ (-500) (by rw [round_eq]; norm_num)]
    decide
  have hres : (handleItemChange exC5 ItemField.price "10").unit_price
      = some (JVal.str "-5.00") := by
    show some (JVal.str (toFixed 2 (jsOr 0 (parseFloatS "10") /
      handleItemChangeQty (setItemField exC5 ItemField.price "10") ItemField.price "10")))
      = some (JVal.str "-5.00")
    rw [h10, hqty, jsOr]
    norm_num
    exact hfix
  exact ⟨hqty, hres, by rw [hres]; simp⟩

/-- C5 (amended): the reconciliation quantity is never zero — `parseFloat(x)
|| 1` maps an unparseable or zero quantity to 1 — so no edit divides by zero;
but a negative parsed quantity is used unchanged by the editable table's
reconciler.  In the `ReceiptList` variants the input strip removes minus
signs, so a sanitised numeric input never parses negative and a quantity edit
there always uses a strictly positive quantity. -/
theorem C5_quantity_amended :
    (∀ (i : ReceiptItem) (field : ItemField) (value : String),
      handleItemChangeQty i field value ≠ 0) ∧
    (∀ (i : ReceiptItem) (value : String),
      parseFloatS value = some 0 ∨ parseFloatS value = none →
      handleItemChangeQty i ItemField.quantity value = 1) ∧
    (∀ (i : ReceiptItem) (value : String) (q : ℚ),
      parseFloatS value = some q → q ≠ 0 →
      handleItemChangeQty i ItemField.quantity value = q) ∧
    (∀ (field : ItemField) (value : String) (q : ℚ),
      parseFloatS (sanitizeNumericInput field value) = some q → 0 ≤ q) ∧
    (∀ value : String,
      0 < jsOr 1 (parseFloatS (sanitizeNumericInput ItemField.quantity value))) := by
  have hnonneg : ∀ (field : ItemField) (value : String) (q : ℚ),
      parseFloatS (sanitizeNumericInput field value) = some q → 0 ≤ q := by
    intro field value q hq
    rw [parseFloatS, parseFloatQ] at hq
    cases hpp : parseParts (sanitizeNumericInput field value).data with
    | none => rw [hpp] at hq; exact absurd hq (by simp)
    | some p =>
      rw [hpp] at hq
      simp only [Option.map] at hq
      injection hq with hq
      have hneg := parseParts_neg_false (sanitizeNumericInput_chars field value) hpp
      rw [← hq]
      exact partsVal_nonneg hneg
  refine ⟨?_, ?_, ?_, hnonneg, ?_⟩
  · intro i field value
    rw [handleItemChangeQty]
    split
    · exact jsOr_one_ne_zero _
    · exact jsOr_one_ne_zero _
  · intro i value h
    rw [handleItemChangeQty, if_pos rfl]
    rcases h with h | h
    · rw [h]; simp [jsOr]
    · rw [h]; simp [jsOr]
  · intro i value q h hq0
    rw [handleItemChangeQty, if_pos rfl, h]
    simp [jsOr, hq0]
  · intro value
    cases hps : parseFloatS (sanitizeNumericInput ItemField.quantity value) with
    | none => simp [jsOr]
    | some q =>
      have hq := hnonneg ItemField.quantity value q hps
      rw [jsOr]
      by_cases h0 : q = 0
      · simp [h0]
      · simp only [h0, if_false]
        exact lt_of_le_of_ne hq (Ne.symm h0)

/-- Witness for C5 at concrete inputs: a zero quantity falls back to 1, a
negative quantity string is used as parsed, and a stripped `-5` becomes the
nonnegative 5. -/
theorem C5_witness :
    handleItemChangeQty {} ItemField.price "x" ≠ 0 ∧
    handleItemChangeQty {} ItemField.quantity "0" = 1 ∧
    handleItemChangeQty {} ItemField.quantity "-2" = -2 ∧
    (0 : ℚ) ≤ 5 ∧
    0 < jsOr 1 (parseFloatS (sanitizeNumericInput ItemField.quantity "-5")) := by
  have h0 : parseFloatS "0" = some 0 := by
    refine parseFloatS_eq_of_parts _ ⟨false, ['0'], [], 0⟩ _ (by decide) ?_
    have h1 : digitsToNat ['0'] = 0 := by decide
    have h2 : digitsToNat ([] : List Char) = 0 := by decide
    simp [partsVal, h1, h2]
  have hm2 : parseFloatS "-2" = some (-2) := by
    refine parseFloatS_eq_of_parts _ ⟨true, ['2'], [], 0⟩ _ (by decide) ?_
    have h1 : digitsToNat ['2'] = 2 := by decide
    have h2 : digitsToNat ([] : List Char) = 0 := by decide
    simp [partsVal, h1, h2]
  have h5 : parseFloatS (sanitizeNumericInput ItemField.quantity "-5") = some 5 := by
    rw [show sanitizeNumericInput ItemField.quantity "-5" = "5" by decide]
    refine parseFloatS_eq_of_parts _ ⟨false, ['5'], [], 0⟩ _ (by decide) ?_
    have h1 : digitsToNat ['5'] = 5 := by decide
    have h2 : digitsToNat ([] : List Char) = 0 := by decide
    simp [partsVal, h1, h2]
  exact ⟨C5_quantity_amended.1 {} ItemField.price "x",
    C5_quantity_amended.2.1 {} "0" (Or.inl h0),
    C5_quantity_amended.2.2.1 {} "-2" (-2) hm2 (by norm_num),
    C5_quantity_amended.2.2.2.1 ItemField.quantity "-5" 5 h5,
    C5_quantity_amended.2.2.2.2 "-5"⟩

/-! ## Claim C6 -/

/-- A receipt with one item that has no involvement map of its own. -/
def exC6 : ReceiptData :=
  { items := [{ description := "a" }]
    involvedHousemates := some [("Timothy", 1), ("Rachel", 0)] }

/-- C6 counterexample: the `useEffect` that fires on every receipt-level
involvement change (`syncItemsWithReceiptInvolvement`) destructively copies
the receipt-level map into an item lacking one, and the component's
initialisation copies an all-involved default into it — both implicit, neither
the explicit user-triggered `applyReceiptSharingToAll` — refuting the claim
that absent per-item involvement is consulted only at read time and never
copied except by the explicit bulk action. -/
theorem C6_counterexample :
    exC6.items.map (fun i => i.involvedHousemates) = [none] ∧
    (syncItemsWithReceiptInvolvement exC6).items.map (fun i => i.involvedHousemates)
      = [some [("Timothy", 1), ("Rachel", 0)]] ∧
    (initialReceiptData exC6).items.map (fun i => i.involvedHousemates)
      = [some defaultAllInvolved] := by
  refine ⟨rfl, ?_, ?_⟩ <;> decide

/-- C6 (amended): at read time (the clipboard formatter) an item's own
involvement map fully overrides the receipt-level one, and an absent map falls
back to the receipt-level set.  But the fallback is not copy-free: besides the
explicit `applyReceiptSharingToAll`, the editable table materialises maps into
items — the initialisation gives every item lacking a map an all-involved
default, and every receipt-level involvement change copies the receipt map
into each item lacking one (items with their own map are preserved); with no
receipt-level map the sync is the identity. -/
theorem C6_involvement_amended :
    (∀ (r : ReceiptData) (i : ReceiptItem) (m : InvMap),
      i.involvedHousemates = some m → resolveItemInvolvement r i = m) ∧
    (∀ (r : ReceiptData) (i : ReceiptItem) (m : InvMap),
      i.involvedHousemates = none → r.involvedHousemates = some m →
      resolveItemInvolvement r i = m) ∧
    (∀ (r : ReceiptData) (m : InvMap), r.involvedHousemates = some m →
      (syncItemsWithReceiptInvolvement r).items
        = r.items.map (fun i =>
            { i with involvedHousemates := some (i.involvedHousemates.getD m) })) ∧
    (∀ r : ReceiptData, r.involvedHousemates = none →
      syncItemsWithReceiptInvolvement r = r) ∧
    (∀ (r : ReceiptData) (m : InvMap), r.involvedHousemates = some m →
      (applyReceiptSharingToAll r).items
        = r.items.map (fun i => { i with involvedHousemates := some m })) ∧
    (∀ r : ReceiptData,
      (initialReceiptData r).items = r.items.map (fun i =>
        { i with
          taxable := some (i.taxable.getD true)
          involvedHousemates := some (i.involvedHousemates.getD defaultAllInvolved) })) := by
  refine ⟨?_, ?_, ?_, ?_, ?_, ?_⟩
  · intro r i m hm
    rw [resolveItemInvolvement, hm]
    rfl
  · intro r i m hi hr
    rw [resolveItemInvolvement, hi, hr]
    rfl
  · intro r m hm
    rw [syncItemsWithReceiptInvolvement, hm]
  · intro r hr
    rw [syncItemsWithReceiptInvolvement, hr]
  · intro r m hm
    rw [applyReceiptSharingToAll, hm]
  · intro r
    rfl

/-- An item carrying its own involvement map, for the C6 witness. -/
def wC6item : ReceiptItem :=
  { description := "b", involvedHousemates := some [("Bryan", 1)] }

/-- Witness for C6 at a concrete receipt and item. -/
theorem C6_witness :
    resolveItemInvolvement exC6 wC6item = [("Bryan", 1)] ∧
    resolveItemInvolvement exC6 { description := "a" } = [("Timothy", 1), ("Rachel", 0)] ∧
    (syncItemsWithReceiptInvolvement exC6).items
      = exC6.items.map (fun i =>
          { i with
            involvedHousemates := some (i.involvedHousemates.getD
              [("Timothy", 1), ("Rachel", 0)]) }) ∧
    (applyReceiptSharingToAll exC6).items
      = exC6.items.map (fun i =>
          { i with involvedHousemates := some [("Timothy", 1), ("Rachel", 0)] }) :=
  ⟨C6_involvement_amended.1 exC6 wC6item [("Bryan", 1)] rfl,
   C6_involvement_amended.2.1 exC6 _ [("Timothy", 1), ("Rachel", 0)] rfl rfl,
   C6_involvement_amended.2.2.1 exC6 [("Timothy", 1), ("Rachel", 0)] rfl,
   C6_involvement_amended.2.2.2.2.1 exC6 [("Timothy", 1), ("Rachel", 0)] rfl⟩

/-! ## Claim C7 -/

/-- The items of the mismatch-detection scenario: prices 10.00 and 5.00. -/
def exC7items : List ReceiptItem :=
  [{ description := "a", price := some (JVal.num 10) },
   { description := "b", price := some (JVal.num 5) }]

/-- C7 counterexample: at the scenario input the verifier computes only the
absolute difference `|16.95 - 17.00| = 0.05` (`Math.abs`), and exposes no
signed delta at all, so it does not return `delta = -0.05` as claimed. -/
theorem C7_counterexample :
    (receiptVerify exC7items (some (JVal.num (39 / 20))) none
        (some (JVal.num 17))).totalDifference = 1 / 20 ∧
    (receiptVerify exC7items (some (JVal.num (39 / 20))) none
        (some (JVal.num 17))).totalDifference ≠ -(1 / 20) := by
  have h : (receiptVerify exC7items (some (JVal.num (39 / 20))) none
      (some (JVal.num 17))).totalDifference = 1 / 20 := by
    show |(jsOr 0 (some 10) + (jsOr 0 (some 5) + 0) + jsOr 0 (some (39 / 20))
      + jsOr 0 (parseJ none)) - jsOr 0 (some 17)| = 1 / 20
    norm_num [jsOr, parseJ]
  exact ⟨h, by rw [h]; norm_num⟩

/-- C7 (amended): at the scenario input the verifier returns `total = 16.95`
and `mismatch = true`, but the only difference it computes is the absolute
`totalDifference = 0.05`; no signed delta is produced.  In general the
recomputed total is the item-price sum plus tax plus tip (each defaulting to
0), and the mismatch flag holds exactly when the absolute difference against
the receipt's own total exceeds 0.01. -/
theorem C7_verify_amended :
    (receiptVerify exC7items (some (JVal.num (39 / 20))) none
        (some (JVal.num 17))).total = 339 / 20 ∧
    (receiptVerify exC7items (some (JVal.num (39 / 20))) none
        (some (JVal.num 17))).mismatch = true ∧
    (receiptVerify exC7items (some (JVal.num (39 / 20))) none
        (some (JVal.num 17))).totalDifference = 1 / 20 ∧
    (∀ (items : List ReceiptItem) (tax tip total : Option JVal),
      (receiptVerify items tax tip total).total
        = (items.map (fun i => jsOr 0 (parseJ i.price))).sum
          + jsOr 0 (parseJ tax) + jsOr 0 (parseJ tip)) ∧
    (∀ (items : List ReceiptItem) (tax tip total : Option JVal),
      (receiptVerify items tax tip total).mismatch = true
        ↔ 1 / 100 < |(receiptVerify items tax tip total).total - jsOr 0 (parseJ total)|) := by
  have hdiff : (receiptVerify exC7items (some (JVal.num (39 / 20))) none
      (some (JVal.num 17))).totalDifference = 1 / 20 := by
    show |(jsOr 0 (some 10) + (jsOr 0 (some 5) + 0) + jsOr 0 (some (39 / 20))
      + jsOr 0 (parseJ none)) - jsOr 0 (some 17)| = 1 / 20
    norm_num [jsOr, parseJ]
  refine ⟨?_, ?_, hdiff, ?_, ?_⟩
  · show jsOr 0 (some 10) + (jsOr 0 (some 5) + 0) + jsOr 0 (some (39 / 20))
      + jsOr 0 (parseJ none) = 339 / 20
    norm_num [jsOr, parseJ]
  · show decide ((receiptVerify exC7items (some (JVal.num (39 / 20))) none
      (some (JVal.num 17))).totalDifference > 1 / 100) = true
    rw [hdiff]
    norm_num
  · intro items tax tip total
    rfl
  · intro items tax tip total
    show decide _ = true ↔ _
    rw [decide_eq_true_iff]
    exact gt_iff_lt

/-! ## Claim C9 -/

/-- A receipt with a known vendor, expense type 1 and total 20, exported both
to the sheet and to the clipboard. -/
def dC9 : ReceiptData :=
  { vendor := some "VendorX", expenseType := some 1, total := some (JVal.num 20) }

/-- The corresponding sheets-service item. -/
def itemC9 : SheetItem := { name := some "ItemY", price := some (JVal.num 20) }

/-- C9 counterexample: the spreadsheet row does follow the claimed order
(vendor in column 6, numeric code in column 3, the per-person share in each
participant column), but the clipboard row does not match it: the vendor sits
in column 2, column 6 holds the per-person average (not the vendor), column 3
holds the Chinese expense-type label instead of the code, and each
participant column holds the involvement flag `1` rather than the share. -/
theorem C9_counterexample :
    (writeReceiptRow (fun _ => "d") dC9 itemC9).get? 5 = some (Cell.s "VendorX") ∧
    (writeReceiptRow (fun _ => "d") dC9 itemC9).get? 2 = some (Cell.s "1") ∧
    (writeReceiptRow (fun _ => "d") dC9 itemC9).get? 7
      = (writeReceiptRow (fun _ => "d") dC9 itemC9).get? 6 ∧
    (clipboardReceiptRow (fun _ => "d") dC9).get? 1 = some "VendorX" ∧
    (clipboardReceiptRow (fun _ => "d") dC9).get? 2 = some "食物" ∧
    (clipboardReceiptRow (fun _ => "d") dC9).get? 5 = some "2.5000" ∧
    (clipboardReceiptRow (fun _ => "d") dC9).get? 5 ≠ some "VendorX" ∧
    (clipboardReceiptRow (fun _ => "d") dC9).get? 7 = some "1" := by
  have hinv : clipboardInvolvedNames dC9 = HOUSEMATES := by decide
  have htot : clipboardTotalAmount dC9 = some 20 := by
    rw [clipboardTotalAmount, if_pos (by norm_num [jsTruthy, dC9])]
    rfl
  have htf : toFixed 4 ((20 : ℚ) / ((HOUSEMATES.filter fun _ => true).length : ℚ))
      = "2.5000" := by
    rw [show ((20 : ℚ) / ((HOUSEMATES.filter fun _ => true).length : ℚ)) = 5 / 2 by
      norm_num [HOUSEMATES]]
    rw [toFixed_eq_of_round 4 _ 25000 (by rw [round_eq]; norm_num)]
    decide
  have h5 : (clipboardReceiptRow (fun _ => "d") dC9).get? 5
      = some (if 0 < (clipboardInvolvedNames dC9).length
          then toFixedOpt 4 ((clipboardTotalAmount dC9).map
            (fun t => t / ((clipboardInvolvedNames dC9).length : ℚ)))
          else "#DIV/0!") := rfl
  rw [hinv, htot, if_pos (by decide)] at h5
  simp only [Option.map, toFixedOpt] at h5
  have h5' : (clipboardReceiptRow (fun _ => "d") dC9).get? 5 = some "2.5000" := by
    rw [h5]
    rw [show (HOUSEMATES.length : ℚ) = ((HOUSEMATES.filter fun _ => true).length : ℚ) by
      norm_num [HOUSEMATES]]
    rw [htf]
  refine ⟨rfl, rfl, rfl, rfl, rfl, h5', ?_, rfl⟩
  rw [h5']
  simp

/-- C9 (amended): the spreadsheet row follows the claimed order — date,
item name/description, expense-type code, price, paidBy, vendor, average —
then one numeric cell per participant holding the per-person amount (or 0 for
an unshared participant).  The clipboard row follows a different order: date,
vendor (or the item description in per-item mode), the expense-type label,
amount, paidBy, then the per-person average twice, then one column per
participant holding the involvement value or blank; its columns 6 and 7
always coincide and its column 2 is the vendor, so it cannot match the
spreadsheet order. -/
theorem C9_export_amended :
    (∀ (fmtDate : Option String → String) (data : ReceiptData) (item : SheetItem),
      writeReceiptRow fmtDate data item
        = [Cell.s (fmtDate data.date),
           Cell.s (jsOrStr item.name (jsOrStr item.description "Unknown Item")),
           Cell.s (match data.expenseType with | some n => intRepr n | none => "9"),
           Cell.n (formatCurrencyN item.price),
           Cell.s (jsOrStr data.paidBy ""),
           Cell.s (jsOrStr data.vendor "Unknown Vendor"),
           Cell.n (sheetRowPerPerson data item)] ++
          HOUSEMATES.map (fun h =>
            Cell.n (if (match data.sharedWith with
                        | none => true
                        | some l => l.contains h)
                    then sheetRowPerPerson data item else some 0))) ∧
    (∀ (fmtDate : Option String → String) (r : ReceiptData),
      (clipboardReceiptRow fmtDate r).length = 7 + HOUSEMATES.length) ∧
    (∀ (fmtDate : Option String → String) (r : ReceiptData),
      (clipboardReceiptRow fmtDate r).get? 5 = (clipboardReceiptRow fmtDate r).get? 6) ∧
    (∀ (fmtDate : Option String → String) (r : ReceiptData),
      (clipboardReceiptRow fmtDate r).get? 1 = some (jsOrStr r.vendor "Unknown Vendor")) ∧
    (∀ (fmtDate : Option String → String) (r : ReceiptData) (i : ReceiptItem),
      (clipboardItemRow fmtDate r i).get? 5 = (clipboardItemRow fmtDate r i).get? 6) ∧
    (∀ (fmtDate : Option String → String) (r : ReceiptData) (i : ReceiptItem),
      (clipboardItemRow fmtDate r i).get? 1
        = some (if i.description = "" then jsOrStr r.vendor "Unknown Vendor"
            else i.description)) := by
  refine ⟨?_, ?_, ?_, ?_, ?_, ?_⟩
  · intro fmtDate data item
    rfl
  · intro fmtDate r
    rw [clipboardReceiptRow]
    simp [List.length_append]
    ring
  · intro fmtDate r
    rfl
  · intro fmtDate r
    rfl
  · intro fmtDate r i
    rfl
  · intro fmtDate r i
    rfl

/-! ## Claim C10 -/

/-- The per-item loop emits exactly the rows of the items whose parsed price
is not `<= 0`. -/
theorem clipboardItemRows_eq_filter (fmtDate : Option String → String)
    (r : ReceiptData) (l : List ReceiptItem) :
    clipboardItemRows fmtDate r l
      = (l.filter (fun i => ! itemPriceNonpos i)).map (clipboardItemRow fmtDate r) := by
  induction l with
  | nil => rfl
  | cons a t ih =>
    by_cases ha : itemPriceNonpos a
    · simp [clipboardItemRows, ha, List.filter_cons, ih]
    · simp [clipboardItemRows, ha, List.filter_cons, ih]

/-- C10: in item-level export mode the clipboard content is exactly one row
per item whose parsed price is positive or `NaN`; an item whose parsed price
is zero or negative is silently dropped (`continue`), so its cost appears in
no participant's rows. -/
theorem C10_drop_nonpositive :
    (∀ (fmtDate : Option String → String) (r : ReceiptData),
      hasMultipleRatios r = true →
      copyReceiptContent fmtDate r
        = (r.items.filter (fun i => ! itemPriceNonpos i)).map (clipboardItemRow fmtDate r)) ∧
    (∀ (i : ReceiptItem) (q : ℚ),
      clipboardItemPrice i = some q → q ≤ 0 → itemPriceNonpos i = true) := by
  constructor
  · intro fmtDate r h
    rw [copyReceiptContent, if_pos h]
    exact clipboardItemRows_eq_filter fmtDate r r.items
  · intro i q hq hle
    rw [itemPriceNonpos, hq]
    simp [hle]

/-- A zero-priced item with its own involvement map. -/
def wC10item : ReceiptItem :=
  { description := "free", price := some (JVal.num 0),
    involvedHousemates := some [("Timothy", 1)] }

/-- A receipt in item-level mode whose first item has price 0. -/
def wC10 : ReceiptData :=
  { items :=
      [wC10item,
       { description := "b", price := some (JVal.num 5),
         involvedHousemates := some [("Rachel", 1)] }] }

/-- Witness for C10: the zero-priced item of a concrete two-item receipt is
dropped from the export. -/
theorem C10_witness :
    copyReceiptContent (fun _ => "d") wC10
      = (wC10.items.filter (fun i => ! itemPriceNonpos i)).map
          (clipboardItemRow (fun _ => "d") wC10) ∧
    itemPriceNonpos wC10item = true :=
  ⟨C10_drop_nonpositive.1 (fun _ => "d") wC10 (by decide),
   C10_drop_nonpositive.2 wC10item 0 rfl (by norm_num)⟩
